import Mathlib

/-!
# Verification of the Furuno NMEA2000 frame decoder (`src/read.py`)

Shallow embedding of the decoding pipeline of class `Furuno`:
hex line parsing, PGN derivation, per-PGN field walking, field decoders,
and the `data_dict` state store, together with the acquisition loop.

Modelling conventions:
* Python floats are modelled as exact rationals (`ℚ`); resolutions `1e-4`,
  `1e-7` become `1/10000`, `1/10000000`, and `np.pi` is the exact rational
  value of the IEEE-754 double `math.pi` (884279719003555 / 2^48).
* The mutable `self.data_dict` is threaded explicitly as a function
  `String → Option Value`; a Python dict assignment is the update `upd`.
* A Python exception raised inside a per-field `try` block is the decoder
  result `DecRes.exn`; the explicit `len(data) != 2` guard of
  `decode_angle_i16_field` (which prints a warning and returns `None`) is
  the distinguished result `DecRes.noneInsufficient got`.
* Exceptions that escape `parse_raw_message` (there is no line-level
  handler in the source) are `Except.error` values of `PyExn`; the `run`
  loop (`runLoop`) has no handler either, so such an error aborts the fold.
* `print` diagnostics are modelled as abstract `Diag` events carrying the
  dynamic data of the corresponding f-string, in emission order.
* Tokens are parsed with `pyInt16`, a faithful model of Python
  `int(tok, 16)` (optional sign, `0x`/`0X` prefix, underscore separators,
  surrounding whitespace); results are unbounded `ℤ`, so payload entries
  are integers, possibly negative or above 0xFF, exactly as in the
  source, and `str.split()` is modelled with Python's full `isspace`
  separator set.
-/

namespace Furuno

/-- A value stored in `data_dict`: numeric decoders yield exact rationals,
the date/time decoders yield strings, and `pynone` models Python `None`
(storable if a decoder returned `None` outside a transform branch). -/
inductive Value
  | num (q : ℚ)
  | str (s : String)
  | pynone
  deriving DecidableEq

/-- Result of invoking a field decoder on a byte slice.
`ok v` is a normal return; `noneInsufficient got` is the explicit
length-guard path of `decode_angle_i16_field` (prints a warning, returns
`None`); `exn` is any Python exception raised inside the decoder
(`ValueError` from `bytes(..)` on an out-of-range element, `struct.error`
on a wrong-size buffer, `IndexError` on an empty slice). -/
inductive DecRes
  | ok (v : Value)
  | noneInsufficient (got : Nat)
  | exn
  deriving DecidableEq

/-- A diagnostic print emitted by the pipeline, in emission order. -/
inductive Diag
  | lengthWarning (got expected : Nat)
  | insufficientAngleData (got : Nat)
  | fieldError (name : String)
  deriving DecidableEq

/-- An exception escaping `parse_raw_message` (the source has no
line-level handler, so these propagate into `run`). -/
inductive PyExn
  | indexError
  | valueError
  deriving DecidableEq

/-- Little-endian unsigned 16-bit value of two bytes (payload entries are
Python ints, hence `ℤ`; `bytes()` has already confined them to
`[0, 256)` wherever this is applied). -/
def u16le (b0 b1 : ℤ) : ℤ := b0 + 256 * b1

/-- Little-endian unsigned 32-bit value of four bytes. -/
def u32le (b0 b1 b2 b3 : ℤ) : ℤ :=
  b0 + 256 * b1 + 65536 * b2 + 16777216 * b3

/-- Reinterpret an unsigned 16-bit value as signed (`struct '<h'`). -/
def toI16 (n : ℤ) : ℤ := if n < 32768 then n else n - 65536

/-- Reinterpret an unsigned 32-bit value as signed (`struct '<i'`). -/
def toI32 (n : ℤ) : ℤ :=
  if n < 2147483648 then n else n - 4294967296

/-- The exact rational value of the IEEE-754 double `np.pi`. -/
def np_pi : ℚ := 884279719003555 / 281474976710656

/-- Python `f"{n:02}"`. -/
def pad2 (n : Nat) : String := if n < 10 then "0" ++ toString n else toString n

/-- Zero-pad to three digits (the fractional part of `f"{x:06.3f}"`). -/
def pad3 (n : Nat) : String :=
  if n < 10 then "00" ++ toString n
  else if n < 100 then "0" ++ toString n
  else toString n

/-- Convert days since 1970-01-01 to `(year, month, day)` in the proleptic
Gregorian calendar, as `time.gmtime(days * 86400)` does for the date part. -/
def civilFromDays (days : Nat) : Nat × Nat × Nat :=
  let z := days + 719468
  let era := z / 146097
  let doe := z % 146097
  let yoe := (doe - doe / 1460 + doe / 36524 - doe / 146096) / 365
  let y := yoe + era * 400
  let doy := doe - (365 * yoe + yoe / 4 - yoe / 100)
  let mp := (5 * doy + 2) / 153
  let dd := doy - (153 * mp + 2) / 5 + 1
  let m := if mp < 10 then mp + 3 else mp - 9
  (if m ≤ 2 then y + 1 else y, m, dd)

/-- Python `time.strftime('%Y-%m-%d', ...)` for the years reachable from a
16-bit day count (always four-digit years). -/
def formatDate (ymd : Nat × Nat × Nat) : String :=
  toString ymd.1 ++ "-" ++ pad2 ymd.2.1 ++ "-" ++ pad2 ymd.2.2

/-- Round `num / den` to the nearest integer, ties to even (idealizes the
decimal rounding of Python float formatting). -/
def roundHalfEven (num den : Nat) : Nat :=
  let q := num / den
  let r := num % den
  if 2 * r < den then q
  else if 2 * r > den then q + 1
  else if q % 2 = 0 then q else q + 1

/-- `decode_uint8_field`: `data[0]` — raises `IndexError` on an empty slice
and performs no range check (values outside `[0, 256)` pass through
unchanged). -/
def decode_uint8_field (data : List ℤ) : DecRes :=
  match data with
  | b :: _ => .ok (.num (b : ℚ))
  | [] => .exn

/-- `decode_date_field`: `struct.unpack('<H', bytes(data[:2]))` then format
`days * 86400` seconds since the epoch as `YYYY-MM-DD` (UTC); `bytes()`
raises on elements outside `[0, 256)`. -/
def decode_date_field (data : List ℤ) : DecRes :=
  match data.take 2 with
  | [b0, b1] =>
    if 0 ≤ b0 ∧ b0 < 256 ∧ 0 ≤ b1 ∧ b1 < 256 then
      .ok (.str (formatDate (civilFromDays (u16le b0 b1).toNat)))
    else .exn
  | _ => .exn

/-- `decode_time_field`: `struct.unpack('<I', bytes(data[:4]))[0] * 0.0001`
seconds since midnight, formatted `f"{h:02}:{m:02}:{s:06.3f}"` (the
3-decimal rounding of the seconds is idealized as exact half-even
rounding of the tick count). -/
def decode_time_field (data : List ℤ) : DecRes :=
  match data.take 4 with
  | [b0, b1, b2, b3] =>
    if 0 ≤ b0 ∧ b0 < 256 ∧ 0 ≤ b1 ∧ b1 < 256 ∧
        0 ≤ b2 ∧ b2 < 256 ∧ 0 ≤ b3 ∧ b3 < 256 then
      let ticks := (u32le b0 b1 b2 b3).toNat
      let hours := ticks / 36000000
      let minutes := ticks % 36000000 / 600000
      let ms := roundHalfEven (ticks % 600000) 10
      .ok (.str (pad2 hours ++ ":" ++ pad2 minutes ++ ":" ++
        pad2 (ms / 1000) ++ "." ++ pad3 (ms % 1000)))
    else .exn
  | _ => .exn

/-- `decode_longitude_i32_field`: signed 32-bit little-endian of
`data[:4]`, times `1e-7`. -/
def decode_longitude_i32_field (data : List ℤ) : DecRes :=
  match data.take 4 with
  | [b0, b1, b2, b3] =>
    if 0 ≤ b0 ∧ b0 < 256 ∧ 0 ≤ b1 ∧ b1 < 256 ∧
        0 ≤ b2 ∧ b2 < 256 ∧ 0 ≤ b3 ∧ b3 < 256 then
      .ok (.num ((toI32 (u32le b0 b1 b2 b3) : ℚ) * (1 / 10000000)))
    else .exn
  | _ => .exn

/-- `decode_latitude_i32_field`: signed 32-bit little-endian of
`data[:4]`, times `1e-7`. -/
def decode_latitude_i32_field (data : List ℤ) : DecRes :=
  match data.take 4 with
  | [b0, b1, b2, b3] =>
    if 0 ≤ b0 ∧ b0 < 256 ∧ 0 ≤ b1 ∧ b1 < 256 ∧
        0 ≤ b2 ∧ b2 < 256 ∧ 0 ≤ b3 ∧ b3 < 256 then
      .ok (.num ((toI32 (u32le b0 b1 b2 b3) : ℚ) * (1 / 10000000)))
    else .exn
  | _ => .exn

/-- `decode_company_field`: unsigned 16-bit little-endian of `data[:2]`. -/
def decode_company_field (data : List ℤ) : DecRes :=
  match data.take 2 with
  | [b0, b1] =>
    if 0 ≤ b0 ∧ b0 < 256 ∧ 0 ≤ b1 ∧ b1 < 256 then
      .ok (.num ((u16le b0 b1 : ℚ)))
    else .exn
  | _ => .exn

/-- `decode_angle_i16_field`: the only decoder with an explicit length
guard — on `len(data) != 2` it prints an insufficient-data warning and
returns `None`; otherwise signed 16-bit little-endian times `1e-4`. -/
def decode_angle_i16_field (data : List ℤ) : DecRes :=
  match data with
  | [b0, b1] =>
    if 0 ≤ b0 ∧ b0 < 256 ∧ 0 ≤ b1 ∧ b1 < 256 then
      .ok (.num ((toI16 (u16le b0 b1) : ℚ) * (1 / 10000)))
    else .exn
  | _ => .noneInsufficient data.length

/-- `decode_angle_u16_field`: unsigned 16-bit little-endian times `1e-4`;
no explicit guard, a wrong-size buffer raises `struct.error`. -/
def decode_angle_u16_field (data : List ℤ) : DecRes :=
  match data with
  | [b0, b1] =>
    if 0 ≤ b0 ∧ b0 < 256 ∧ 0 ≤ b1 ∧ b1 < 256 then
      .ok (.num ((u16le b0 b1 : ℚ) * (1 / 10000)))
    else .exn
  | _ => .exn

/-- `decode_lookup_field`: unsigned 16-bit little-endian, raw code. -/
def decode_lookup_field (data : List ℤ) : DecRes :=
  match data with
  | [b0, b1] =>
    if 0 ≤ b0 ∧ b0 < 256 ∧ 0 ≤ b1 ∧ b1 < 256 then
      .ok (.num ((u16le b0 b1 : ℚ)))
    else .exn
  | _ => .exn

/-- `decode_speed_u16_cm_field`: unsigned 16-bit little-endian over 100. -/
def decode_speed_u16_cm_field (data : List ℤ) : DecRes :=
  match data with
  | [b0, b1] =>
    if 0 ≤ b0 ∧ b0 < 256 ∧ 0 ≤ b1 ∧ b1 < 256 then
      .ok (.num ((u16le b0 b1 : ℚ) / 100))
    else .exn
  | _ => .exn

/-- `decode_manufacturer_field`: `(data[0] << 3) | (data[1] >> 5)` —
no `bytes()` call, so no range check; `IndexError` when fewer than two
elements; Python's `<<`, arithmetic `>>` and two's-complement `|`. -/
def decode_manufacturer_field (data : List ℤ) : DecRes :=
  match data with
  | b0 :: b1 :: _ =>
    .ok (.num ((Int.lor (b0 <<< (3 : ℤ)) (b1 >>> (5 : ℤ)) : ℚ)))
  | _ => .exn

/-- `decode_industry_field`: `data[1] & 0b00000111` (two's complement). -/
def decode_industry_field (data : List ℤ) : DecRes :=
  match data with
  | _ :: b1 :: _ => .ok (.num ((Int.land b1 7 : ℚ)))
  | _ => .exn

/-- `self.field_decoders`: the dispatch table built in `__init__`
(the `Latitude: decode_latitude_i64_field`, `Company` and `Industry`
entries are commented out in the source and therefore absent). -/
def field_decoders (name : String) : Option (List ℤ → DecRes) :=
  if name = "Heading" then some decode_angle_u16_field
  else if name = "Deviation" then some decode_angle_i16_field
  else if name = "Variation" then some decode_angle_i16_field
  else if name = "Reference" then some decode_lookup_field
  else if name = "SID" then some decode_uint8_field
  else if name = "Date" then some decode_date_field
  else if name = "Time" then some decode_time_field
  else if name = "Latitude" then some decode_latitude_i32_field
  else if name = "Longitude" then some decode_longitude_i32_field
  else if name = "A" then some decode_uint8_field
  else if name = "B" then some decode_uint8_field
  else if name = "Yaw" then some decode_angle_i16_field
  else if name = "Pitch" then some decode_angle_i16_field
  else if name = "Roll" then some decode_angle_i16_field
  else none

/-- One `{"name": ..., "length": ...}` entry of a per-PGN field list. -/
structure FieldSpec where
  name : String
  length : Nat
  deriving DecidableEq

/-- `self.field_list_gps` (PGN 129025). -/
def field_list_gps : List FieldSpec :=
  [⟨"Latitude", 4⟩, ⟨"Longitude", 4⟩]

/-- `self.field_list_attitude` (PGN 127257; the `Reserved` entry is
commented out in the source). -/
def field_list_attitude : List FieldSpec :=
  [⟨"SID", 1⟩, ⟨"Yaw", 2⟩, ⟨"Pitch", 2⟩, ⟨"Roll", 2⟩]

/-- `self.field_list_heading` (PGN 127250; `Deviation`, `Variation` and
`Reference` are commented out in the source). -/
def field_list_heading : List FieldSpec :=
  [⟨"SID", 1⟩, ⟨"Heading", 2⟩]

/-- `field_list_cog_sog`, the list local to the PGN 129026 branch. -/
def field_list_cog_sog : List FieldSpec :=
  [⟨"SID", 1⟩, ⟨"COG Reference", 1⟩, ⟨"COG", 2⟩, ⟨"SOG", 2⟩]

/-- `get_pgn_from_message`: discard the low 8 bits (source address) with
Python's arithmetic right shift on `int`, then mask the next 18 bits with
Python's two's-complement bitwise and. -/
def get_pgn_from_message (msgid : ℤ) : ℤ :=
  let shifted_msgid := msgid >>> (8 : ℤ)
  Int.land shifted_msgid 0x3FFFF

/-- The mutable `self.data_dict`, as a map from field name to stored
value. -/
abbrev DataDict := String → Option Value

/-- A single Python dict assignment `data_dict[name] = v`. -/
def upd (d : DataDict) (name : String) (v : Value) : DataDict :=
  fun k => if name = k then some v else d k

/-- The dict with no keys (the fresh `self.data_dict = {}`). -/
def emptyDict : DataDict := fun _ => none

/-- The characters for which Python's `str.isspace()` is true — the
separator set of `str.split()` with no argument: ASCII whitespace, the
file/group/record/unit separators `\x1c`-`\x1f`, NEL `\x85`, NBSP `\xa0`,
and the Unicode space-separator and line/paragraph-separator
characters. -/
def pySpace (c : Char) : Bool :=
  c == ' ' || c == '\t' || c == '\n' || c == '\x0b' || c == '\x0c' ||
  c == '\r' ||
  c == '\x1c' || c == '\x1d' || c == '\x1e' || c == '\x1f' ||
  c == '\x85' || c == '\xa0' || c == '\u1680' ||
  (0x2000 ≤ c.toNat && c.toNat ≤ 0x200A) ||
  c == '\u2028' || c == '\u2029' || c == '\u202F' || c == '\u205F' ||
  c == '\u3000'

/-- Worker for `pySplit`: accumulates the current token in reverse. -/
def pySplitGo : List Char → List Char → List String
  | [], cur => if cur.isEmpty then [] else [String.mk cur.reverse]
  | c :: cs, cur =>
    if pySpace c then
      if cur.isEmpty then pySplitGo cs []
      else String.mk cur.reverse :: pySplitGo cs []
    else pySplitGo cs (c :: cur)

/-- Python `message.split()`: split on runs of whitespace, no empty
tokens. -/
def pySplit (s : String) : List String := pySplitGo s.toList []

/-- Value of one hexadecimal digit. -/
def hexDigitVal (c : Char) : Option Nat :=
  if '0' ≤ c ∧ c ≤ '9' then some (c.toNat - '0'.toNat)
  else if 'a' ≤ c ∧ c ≤ 'f' then some (c.toNat - 'a'.toNat + 10)
  else if 'A' ≤ c ∧ c ≤ 'F' then some (c.toNat - 'A'.toNat + 10)
  else none

/-- Strip the surrounding whitespace `int()` ignores (tokens coming from
`split()` never contain any, but `int()` itself strips it). -/
def pyStrip (cs : List Char) : List Char :=
  ((cs.dropWhile pySpace).reverse.dropWhile pySpace).reverse

/-- The digit run of `int(s, 16)` after the optional sign and `0x`
prefix: hexadecimal digits with single underscores allowed between
digits (and directly after the prefix). `canEnd` records that the last
character seen was a digit (so the string may end), `canUnd` that an
underscore may come next. -/
def hexGo : List Char → Nat → Bool → Bool → Option Nat
  | [], acc, canEnd, _ => if canEnd then some acc else none
  | c :: cs, acc, _, canUnd =>
    if c = '_' then
      if canUnd then hexGo cs acc false false else none
    else
      match hexDigitVal c with
      | some v => hexGo cs (16 * acc + v) true true
      | none => none

/-- Python `int(tok, 16)` on a `str`: optional surrounding whitespace,
optional `+`/`-` sign, optional `0x`/`0X` prefix, then hexadecimal digits
with underscore separators; `none` is the raised `ValueError` (in
particular on the empty string, a bare sign or prefix, or a misplaced
underscore). Non-ASCII digit forms, which `int()` also accepts, are not
modelled — this transport is ASCII. -/
def pyInt16 (s : String) : Option ℤ :=
  let cs := pyStrip s.toList
  let sgn : ℤ × List Char :=
    match cs with
    | '+' :: r => (1, r)
    | '-' :: r => (-1, r)
    | r => (1, r)
  let body : List Char × Bool :=
    match sgn.2 with
    | '0' :: c :: r =>
      if c = 'x' ∨ c = 'X' then (r, true) else (sgn.2, false)
    | _ => (sgn.2, false)
  (hexGo body.1 0 false body.2).map fun n => sgn.1 * (n : ℤ)

/-- The list comprehension `[int(byte, 16) for byte in data_bytes]`:
`none` is the `ValueError` raised at the first invalid token. -/
def hexList : List String → Option (List ℤ)
  | [] => some []
  | t :: ts =>
    match pyInt16 t, hexList ts with
    | some v, some vs => some (v :: vs)
    | _, _ => none

/-- The shared shape of the four per-PGN field loops in
`parse_raw_message` (lines 158-173, 188-199, 215-231, 251-266 of
`src/read.py`), walking the field list with a running offset `start`:
* a field whose name has no decoder hits `continue`, which skips the
  `start += field_length` at the end of the loop body — the offset does
  NOT advance for such a field;
* with `skipSID` (the branches containing `if not field_name == 'SID'`,
  i.e. PGNs 129025, 127257, 127250), a field named `SID` is not decoded
  but its offset bookkeeping still happens;
* `transform` (PGNs 127257, 127250) stores `180*decoder(..)/np.pi`:
  a decoder exception or a returned `None` makes that expression raise,
  which the per-field `except` turns into a `fieldError` print;
* without `transform` (PGNs 129025, 129026) the raw decoder result is
  stored — a returned `None` would be stored as such (`Value.pynone`).
Returns the updated dict, the accumulated diagnostics and the final
offset. -/
def decodeFields (transform skipSID : Bool) (bytes : List ℤ) :
    List FieldSpec → Nat → DataDict → List Diag → DataDict × List Diag × Nat
  | [], start, d, diags => (d, diags, start)
  | f :: rest, start, d, diags =>
    match field_decoders f.name with
    | none => decodeFields transform skipSID bytes rest start d diags
    | some dec =>
      if skipSID && f.name == "SID" then
        decodeFields transform skipSID bytes rest (start + f.length) d diags
      else
        match dec ((bytes.drop start).take f.length) with
        | .ok v =>
          if transform then
            match v with
            | .num q =>
              decodeFields transform skipSID bytes rest (start + f.length)
                (upd d f.name (.num (180 * q / np_pi))) diags
            | _ =>
              decodeFields transform skipSID bytes rest (start + f.length)
                d (diags ++ [.fieldError f.name])
          else
            decodeFields transform skipSID bytes rest (start + f.length)
              (upd d f.name v) diags
        | .noneInsufficient got =>
          if transform then
            decodeFields transform skipSID bytes rest (start + f.length)
              d (diags ++ [.insufficientAngleData got, .fieldError f.name])
          else
            decodeFields transform skipSID bytes rest (start + f.length)
              (upd d f.name .pynone) (diags ++ [.insufficientAngleData got])
        | .exn =>
          decodeFields transform skipSID bytes rest (start + f.length)
            d (diags ++ [.fieldError f.name])

/-- One per-PGN branch of `parse_raw_message`: the insufficient-length
warning (`expected_byte_count` check) followed by the field loop. -/
def runBranch (transform skipSID : Bool) (fields : List FieldSpec)
    (bytes : List ℤ) (d : DataDict) : DataDict × List Diag × Nat :=
  let expected_byte_count := (fields.map FieldSpec.length).sum
  let diags0 :=
    if bytes.length < expected_byte_count then
      [Diag.lengthWarning bytes.length expected_byte_count]
    else []
  decodeFields transform skipSID bytes fields 0 d diags0

/-- `parse_raw_message(self, message)`: split the line, read
`parts[0]`/`parts[1]`/`parts[2]` (fewer than 3 tokens raises
`IndexError`), parse the message id and the payload tokens with
`int(tok, 16)` (`ValueError` on a token that parser rejects — there is
no range check, so negative values and values above 0xFF pass through),
derive the PGN and run the matching branch.
There is no handler in this function: a raised exception is returned as
`Except.error` and propagates to the caller. -/
def parse_raw_message (d : DataDict) (message : String) :
    Except PyExn (DataDict × List Diag) :=
  match pySplit message with
  | _timestamp :: _direction :: midTok :: data_bytes =>
    (match pyInt16 midTok with
     | none => .error .valueError
     | some msgid =>
       match hexList data_bytes with
       | none => .error .valueError
       | some int_data_bytes =>
         let pgn := get_pgn_from_message msgid
         if pgn = 129025 then
           let r := runBranch false true field_list_gps int_data_bytes d
           .ok (r.1, r.2.1)
         else if pgn = 129026 then
           let r := runBranch false false field_list_cog_sog int_data_bytes d
           .ok (r.1, r.2.1)
         else if pgn = 127257 then
           let r := runBranch true true field_list_attitude int_data_bytes d
           .ok (r.1, r.2.1)
         else if pgn = 127250 then
           let r := runBranch true true field_list_heading int_data_bytes d
           .ok (r.1, r.2.1)
         else .ok (d, []))
  | _ => .error .indexError

/-- The `run` loop over a finite prefix of the input stream: each line is
fed to `parse_raw_message`; since `run` installs no handler, an escaping
exception aborts the loop (the remaining lines are never processed). -/
def runLoop : DataDict → List String → Except PyExn DataDict
  | d, [] => .ok d
  | d, msg :: rest =>
    match parse_raw_message d msg with
    | .error e => .error e
    | .ok r => runLoop r.1 rest

/-- `get_data`: `self.data_dict.copy()` — an independent snapshot, which
in this functional model is the map itself. -/
def get_data (d : DataDict) : DataDict := d

/-- Apply a list of dict assignments in order. -/
def applyAll (ws : List (String × Value)) (d : DataDict) : DataDict :=
  ws.foldl (fun acc kv => upd acc kv.1 kv.2) d

/-- The last value a write list assigns to a key, if any. -/
def lookupLast (ws : List (String × Value)) (k : String) : Option Value :=
  match ws with
  | [] => none
  | w :: rest =>
    match lookupLast rest k with
    | some v => some v
    | none => if w.1 = k then some w.2 else none

/-- The dict assignments performed by `decodeFields`, in order; mirrors
`decodeFields` arm by arm and depends only on the payload, never on the
current dict. -/
def fieldWrites (transform skipSID : Bool) (bytes : List ℤ) :
    List FieldSpec → Nat → List (String × Value)
  | [], _ => []
  | f :: rest, start =>
    match field_decoders f.name with
    | none => fieldWrites transform skipSID bytes rest start
    | some dec =>
      if skipSID && f.name == "SID" then
        fieldWrites transform skipSID bytes rest (start + f.length)
      else
        match dec ((bytes.drop start).take f.length) with
        | .ok v =>
          if transform then
            match v with
            | .num q =>
              (f.name, Value.num (180 * q / np_pi)) ::
                fieldWrites transform skipSID bytes rest (start + f.length)
            | _ => fieldWrites transform skipSID bytes rest (start + f.length)
          else
            (f.name, v) ::
              fieldWrites transform skipSID bytes rest (start + f.length)
        | .noneInsufficient _ =>
          if transform then
            fieldWrites transform skipSID bytes rest (start + f.length)
          else
            (f.name, Value.pynone) ::
              fieldWrites transform skipSID bytes rest (start + f.length)
        | .exn => fieldWrites transform skipSID bytes rest (start + f.length)

/-! ## Infrastructure lemmas -/

lemma applyAll_nil (d : DataDict) : applyAll [] d = d := rfl

lemma applyAll_cons (w : String × Value) (ws : List (String × Value))
    (d : DataDict) : applyAll (w :: ws) d = applyAll ws (upd d w.1 w.2) := rfl

lemma applyAll_apply (ws : List (String × Value)) (d : DataDict)
    (k : String) :
    applyAll ws d k =
      (match lookupLast ws k with
       | some v => some v
       | none => d k) := by
  induction ws generalizing d with
  | nil => simp [applyAll, lookupLast]
  | cons w ws ih =>
    rw [applyAll_cons, ih]
    show _ = (match lookupLast (w :: ws) k with
              | some v => some v
              | none => d k)
    rw [lookupLast]
    cases lookupLast ws k with
    | some v => rfl
    | none =>
      show upd d w.1 w.2 k = _
      rw [upd]
      by_cases h : w.1 = k
      · simp [h]
      · simp [h]

lemma applyAll_idem (ws : List (String × Value)) (d : DataDict) :
    applyAll ws (applyAll ws d) = applyAll ws d := by
  funext k
  simp only [applyAll_apply]
  cases h : lookupLast ws k <;> simp

/-- The dict produced by a field loop is the pure write list applied to
the incoming dict. -/
lemma decodeFields_fst (t s : Bool) (bytes : List ℤ) :
    ∀ (fs : List FieldSpec) (start : Nat) (d : DataDict)
      (diags : List Diag),
      (decodeFields t s bytes fs start d diags).1 =
        applyAll (fieldWrites t s bytes fs start) d := by
  intro fs
  induction fs with
  | nil => intro start d diags; rfl
  | cons f rest ih =>
    intro start d diags
    rw [decodeFields, fieldWrites]
    cases hdec : field_decoders f.name with
    | none => simpa using ih start d diags
    | some dec =>
      simp only
      by_cases hs : (s && f.name == "SID") = true
      · simp only [hs, if_true]; exact ih _ _ _
      · simp only [Bool.not_eq_true] at hs
        simp only [hs, Bool.false_eq_true, if_false]
        cases hres : dec ((bytes.drop start).take f.length) with
        | ok v =>
          cases t with
          | true =>
            cases v with
            | num q =>
              simp only [if_true, applyAll_cons]
              exact ih _ _ _
            | str sv => simp only [if_true]; exact ih _ _ _
            | pynone => simp only [if_true]; exact ih _ _ _
          | false =>
            simp only [Bool.false_eq_true, if_false, applyAll_cons]
            exact ih _ _ _
        | noneInsufficient got =>
          cases t with
          | true => simp only [if_true]; exact ih _ _ _
          | false =>
            simp only [Bool.false_eq_true, if_false, applyAll_cons]
            exact ih _ _ _
        | exn => exact ih _ _ _

lemma runBranch_fst (t s : Bool) (fields : List FieldSpec)
    (bytes : List ℤ) (d : DataDict) :
    (runBranch t s fields bytes d).1 =
      applyAll (fieldWrites t s bytes fields 0) d := by
  rw [runBranch]
  exact decodeFields_fst t s bytes fields 0 d _

/-- Every line either fails identically on every dict, or applies a fixed
(dict-independent) write list. -/
lemma parse_writes (msg : String) :
    (∃ e, ∀ d : DataDict, parse_raw_message d msg = .error e) ∨
    (∃ ws, ∀ d : DataDict, ∃ l,
      parse_raw_message d msg = .ok (applyAll ws d, l)) := by
  rcases hsp : pySplit msg with _ | ⟨ts, _ | ⟨dir, _ | ⟨mid, pl⟩⟩⟩
  · exact .inl ⟨.indexError, fun d => by rw [parse_raw_message, hsp]⟩
  · exact .inl ⟨.indexError, fun d => by rw [parse_raw_message, hsp]⟩
  · exact .inl ⟨.indexError, fun d => by rw [parse_raw_message, hsp]⟩
  cases hm : pyInt16 mid with
  | none => exact .inl ⟨.valueError, fun d => by rw [parse_raw_message, hsp]; simp [hm]⟩
  | some msgid =>
    cases hb : hexList pl with
    | none =>
      exact .inl ⟨.valueError, fun d => by rw [parse_raw_message, hsp]; simp [hm, hb]⟩
    | some bs =>
      by_cases h1 : get_pgn_from_message msgid = 129025
      · refine .inr ⟨fieldWrites false true bs field_list_gps 0, fun d =>
          ⟨(runBranch false true field_list_gps bs d).2.1, ?_⟩⟩
        rw [parse_raw_message, hsp]
        simp only [hm, hb, h1, if_true, runBranch_fst]
      by_cases h2 : get_pgn_from_message msgid = 129026
      · refine .inr ⟨fieldWrites false false bs field_list_cog_sog 0, fun d =>
          ⟨(runBranch false false field_list_cog_sog bs d).2.1, ?_⟩⟩
        rw [parse_raw_message, hsp]
        simp [hm, hb, h1, h2, runBranch_fst]
      by_cases h3 : get_pgn_from_message msgid = 127257
      · refine .inr ⟨fieldWrites true true bs field_list_attitude 0, fun d =>
          ⟨(runBranch true true field_list_attitude bs d).2.1, ?_⟩⟩
        rw [parse_raw_message, hsp]
        simp [hm, hb, h1, h2, h3, runBranch_fst]
      by_cases h4 : get_pgn_from_message msgid = 127250
      · refine .inr ⟨fieldWrites true true bs field_list_heading 0, fun d =>
          ⟨(runBranch true true field_list_heading bs d).2.1, ?_⟩⟩
        rw [parse_raw_message, hsp]
        simp [hm, hb, h1, h2, h3, h4, runBranch_fst]
      refine .inr ⟨[], fun d => ⟨[], ?_⟩⟩
      rw [parse_raw_message, hsp]
      simp only [hm, hb, h1, h2, h3, h4, if_false, applyAll_nil]

lemma noGuard_uint8 (data : List ℤ) (g : Nat) :
    decode_uint8_field data ≠ .noneInsufficient g := by
  cases data <;> simp [decode_uint8_field]

lemma noGuard_date (data : List ℤ) (g : Nat) :
    decode_date_field data ≠ .noneInsufficient g := by
  intro h
  unfold decode_date_field at h
  split at h
  · split_ifs at h <;> simp_all
  · simp_all

lemma noGuard_time (data : List ℤ) (g : Nat) :
    decode_time_field data ≠ .noneInsufficient g := by
  intro h
  unfold decode_time_field at h
  split at h
  · split_ifs at h <;> simp_all
  · simp_all

lemma noGuard_lookup (data : List ℤ) (g : Nat) :
    decode_lookup_field data ≠ .noneInsufficient g := by
  intro h
  unfold decode_lookup_field at h
  split at h
  · split_ifs at h <;> simp_all
  · simp_all

lemma noGuard_angle_u16 (data : List ℤ) (g : Nat) :
    decode_angle_u16_field data ≠ .noneInsufficient g := by
  intro h
  unfold decode_angle_u16_field at h
  split at h
  · split_ifs at h <;> simp_all
  · simp_all

lemma noGuard_latitude (data : List ℤ) (g : Nat) :
    decode_latitude_i32_field data ≠ .noneInsufficient g := by
  intro h
  unfold decode_latitude_i32_field at h
  split at h
  · split_ifs at h <;> simp_all
  · simp_all

lemma noGuard_longitude (data : List ℤ) (g : Nat) :
    decode_longitude_i32_field data ≠ .noneInsufficient g := by
  intro h
  unfold decode_longitude_i32_field at h
  split at h
  · split_ifs at h <;> simp_all
  · simp_all

/-- Enumeration of the decoder functions reachable through
`field_decoders`. -/
lemma field_decoders_cases (name : String) (dec : List ℤ → DecRes)
    (hdec : field_decoders name = some dec) :
    dec = decode_angle_u16_field ∨ dec = decode_angle_i16_field ∨
    dec = decode_lookup_field ∨ dec = decode_uint8_field ∨
    dec = decode_date_field ∨ dec = decode_time_field ∨
    dec = decode_latitude_i32_field ∨ dec = decode_longitude_i32_field := by
  unfold field_decoders at hdec
  by_cases h1 : name = "Heading"
  · rw [if_pos h1] at hdec; injection hdec with hd; subst hd; exact .inl rfl
  rw [if_neg h1] at hdec
  by_cases h2 : name = "Deviation"
  · rw [if_pos h2] at hdec; injection hdec with hd; subst hd
    exact .inr (.inl rfl)
  rw [if_neg h2] at hdec
  by_cases h3 : name = "Variation"
  · rw [if_pos h3] at hdec; injection hdec with hd; subst hd
    exact .inr (.inl rfl)
  rw [if_neg h3] at hdec
  by_cases h4 : name = "Reference"
  · rw [if_pos h4] at hdec; injection hdec with hd; subst hd
    exact .inr (.inr (.inl rfl))
  rw [if_neg h4] at hdec
  by_cases h5 : name = "SID"
  · rw [if_pos h5] at hdec; injection hdec with hd; subst hd
    exact .inr (.inr (.inr (.inl rfl)))
  rw [if_neg h5] at hdec
  by_cases h6 : name = "Date"
  · rw [if_pos h6] at hdec; injection hdec with hd; subst hd
    exact .inr (.inr (.inr (.inr (.inl rfl))))
  rw [if_neg h6] at hdec
  by_cases h7 : name = "Time"
  · rw [if_pos h7] at hdec; injection hdec with hd; subst hd
    exact .inr (.inr (.inr (.inr (.inr (.inl rfl)))))
  rw [if_neg h7] at hdec
  by_cases h8 : name = "Latitude"
  · rw [if_pos h8] at hdec; injection hdec with hd; subst hd
    exact .inr (.inr (.inr (.inr (.inr (.inr (.inl rfl))))))
  rw [if_neg h8] at hdec
  by_cases h9 : name = "Longitude"
  · rw [if_pos h9] at hdec; injection hdec with hd; subst hd
    exact .inr (.inr (.inr (.inr (.inr (.inr (.inr rfl))))))
  rw [if_neg h9] at hdec
  by_cases h10 : name = "A"
  · rw [if_pos h10] at hdec; injection hdec with hd; subst hd
    exact .inr (.inr (.inr (.inl rfl)))
  rw [if_neg h10] at hdec
  by_cases h11 : name = "B"
  · rw [if_pos h11] at hdec; injection hdec with hd; subst hd
    exact .inr (.inr (.inr (.inl rfl)))
  rw [if_neg h11] at hdec
  by_cases h12 : name = "Yaw"
  · rw [if_pos h12] at hdec; injection hdec with hd; subst hd
    exact .inr (.inl rfl)
  rw [if_neg h12] at hdec
  by_cases h13 : name = "Pitch"
  · rw [if_pos h13] at hdec; injection hdec with hd; subst hd
    exact .inr (.inl rfl)
  rw [if_neg h13] at hdec
  by_cases h14 : name = "Roll"
  · rw [if_pos h14] at hdec; injection hdec with hd; subst hd
    exact .inr (.inl rfl)
  rw [if_neg h14] at hdec
  exact Option.noConfusion hdec

/-! ## Claim theorems -/

/-- C4 (amended): a PGN-129026 (COG & SOG) frame writes at most the key
`SID`: `COG Reference`, `COG` and `SOG` have no decoder registered, so
they are skipped and never published, and every other key of the store is
unchanged. However the skip (`continue`) bypasses the offset increment, so
the running offset ends at 1 (after `SID`), not at the schema width 6. -/
theorem c4_cog_sog_writes_only_sid (d : DataDict) (bytes : List ℤ) :
    (∀ k, k ≠ "SID" →
      (runBranch false false field_list_cog_sog bytes d).1 k = d k)
    ∧ (runBranch false false field_list_cog_sog bytes d).2.2 = 1 := by
  constructor
  · intro k hk
    rw [runBranch_fst, applyAll_apply]
    cases bytes with
    | nil =>
      simp [fieldWrites, field_list_cog_sog, field_decoders,
        decode_uint8_field, lookupLast]
    | cons b bs =>
      simp [fieldWrites, field_list_cog_sog, field_decoders,
        decode_uint8_field, lookupLast, Ne.symm hk]
  · cases bytes <;>
      simp [runBranch, decodeFields, field_list_cog_sog, field_decoders,
        decode_uint8_field]

/-- C4 witness: a concrete 6-byte COG & SOG payload leaves every key but
`SID` untouched. -/
theorem c4_witness :
    (runBranch false false field_list_cog_sog [5, 0, 0, 0, 0, 0]
        emptyDict).1 "COG" = emptyDict "COG" :=
  (c4_cog_sog_writes_only_sid emptyDict [5, 0, 0, 0, 0, 0]).1 "COG"
    (by decide)

/-- C4 counterexample: the claim asserts that the offsets of the
decoder-less fields still advance; in the code the `continue` skips the
`start += field_length` line, so after a 6-byte PGN-129026 payload the
running offset is 1, not the schema width
`sum(field.byte_length) = 6`. -/
theorem c4_counterexample :
    (runBranch false false field_list_cog_sog [5, 0, 0, 0, 0, 0]
        emptyDict).2.2 = 1
    ∧ (runBranch false false field_list_cog_sog [5, 0, 0, 0, 0, 0]
        emptyDict).2.2 ≠ (field_list_cog_sog.map FieldSpec.length).sum := by
  constructor
  · decide
  · decide

/-- C6: `decode_angle_i16_field` is the only field decoder with an
explicit length guard: on any slice whose length is not exactly 2 it
fails with the insufficient-data path (prints and returns `None`); on
exactly 2 bytes it returns the little-endian signed 16-bit value times
`1e-4`; every other registered decoder (in particular
`decode_angle_u16_field`) never takes such a guard path — a wrong-size
slice raises an exception instead. -/
theorem c6_angle_i16_guard :
    (∀ data : List ℤ, data.length ≠ 2 →
      decode_angle_i16_field data = .noneInsufficient data.length)
    ∧ (∀ b0 b1 : ℤ, 0 ≤ b0 → b0 < 256 → 0 ≤ b1 → b1 < 256 →
      decode_angle_i16_field [b0, b1] =
        .ok (.num ((toI16 (u16le b0 b1) : ℚ) * (1 / 10000))))
    ∧ (∀ (name : String) (dec : List ℤ → DecRes) (data : List ℤ)
        (g : Nat), field_decoders name = some dec →
        dec data = .noneInsufficient g → dec = decode_angle_i16_field)
    ∧ (∀ (data : List ℤ) (g : Nat),
      decode_angle_u16_field data ≠ .noneInsufficient g) := by
  refine ⟨?_, ?_, ?_, noGuard_angle_u16⟩
  · intro data h
    rcases data with _ | ⟨a, _ | ⟨b, _ | _⟩⟩
    · rfl
    · rfl
    · simp at h
    · rfl
  · intro b0 b1 g0 h0 g1 h1
    simp [decode_angle_i16_field, g0, h0, g1, h1]
  · intro name dec data g hdec hres
    rcases field_decoders_cases name dec hdec with
      h | h | h | h | h | h | h | h <;> subst h
    · exact absurd hres (noGuard_angle_u16 data g)
    · rfl
    · exact absurd hres (noGuard_lookup data g)
    · exact absurd hres (noGuard_uint8 data g)
    · exact absurd hres (noGuard_date data g)
    · exact absurd hres (noGuard_time data g)
    · exact absurd hres (noGuard_latitude data g)
    · exact absurd hres (noGuard_longitude data g)

/-- C6 witness: the guard fires on a 3-byte slice, and a valid 2-byte
slice decodes to the signed little-endian value times the resolution. -/
theorem c6_witness :
    decode_angle_i16_field [1, 2, 3] =
      .noneInsufficient ([1, 2, 3] : List ℤ).length
    ∧ decode_angle_i16_field [0, 16] =
      .ok (.num ((toI16 (u16le 0 16) : ℚ) * (1 / 10000))) :=
  ⟨c6_angle_i16_guard.1 [1, 2, 3] (by decide),
   c6_angle_i16_guard.2.1 0 16 (by decide) (by decide) (by decide)
     (by decide)⟩

/-- C7: a well-formed line whose derived PGN is none of 129025, 129026,
127257, 127250 is a silent no-op: the store is returned unchanged and no
diagnostic or error is produced. -/
theorem c7_unknown_pgn_noop (d : DataDict) (msg ts dir mid : String)
    (pl : List String) (msgid : ℤ) (bs : List ℤ)
    (hsp : pySplit msg = ts :: dir :: mid :: pl)
    (hm : pyInt16 mid = some msgid)
    (hb : hexList pl = some bs)
    (h1 : get_pgn_from_message msgid ≠ 129025)
    (h2 : get_pgn_from_message msgid ≠ 129026)
    (h3 : get_pgn_from_message msgid ≠ 127257)
    (h4 : get_pgn_from_message msgid ≠ 127250) :
    parse_raw_message d msg = .ok (d, []) := by
  rw [parse_raw_message, hsp]
  simp [hm, hb, h1, h2, h3, h4]

/-- C7 witness: a line with message id `0x100` (PGN 1) leaves the empty
store empty with no diagnostics. -/
theorem c7_witness :
    parse_raw_message emptyDict "10:00 R 100 01" = .ok (emptyDict, []) :=
  c7_unknown_pgn_noop emptyDict "10:00 R 100 01" "10:00" "R" "100" ["01"]
    256 [1] (by decide) (by decide) (by decide) (by decide) (by decide)
    (by decide) (by decide)

/-- C8: for every unsigned 32-bit message id the derived PGN is
`(id >>> 8) &&& 0x3FFFF`, hence lies in `[0, 2^18)`, and the derivation
is deterministic. -/
theorem c8_pgn_derivation (m : Nat) (h : m < 4294967296) :
    get_pgn_from_message (m : ℤ) = (((m >>> 8) &&& 0x3FFFF : ℕ) : ℤ)
    ∧ 0 ≤ get_pgn_from_message (m : ℤ)
    ∧ get_pgn_from_message (m : ℤ) < 262144
    ∧ ∀ m2 : ℤ, m2 = (m : ℤ) →
        get_pgn_from_message m2 = get_pgn_from_message (m : ℤ) := by
  have key : get_pgn_from_message (m : ℤ)
      = (((m >>> 8) &&& 0x3FFFF : ℕ) : ℤ) := rfl
  refine ⟨key, ?_, ?_, fun m2 hm => hm ▸ rfl⟩
  · rw [key]; exact Int.natCast_nonneg _
  · rw [key]
    exact_mod_cast lt_of_le_of_lt (Nat.and_le_right (n := m >>> 8))
      (by norm_num)

/-- C8 witness: the message id `0x1F80100` yields PGN 129025. -/
theorem c8_witness :
    get_pgn_from_message ((33030400 : ℕ) : ℤ)
      = (((33030400 >>> 8) &&& 0x3FFFF : ℕ) : ℤ)
    ∧ 0 ≤ get_pgn_from_message ((33030400 : ℕ) : ℤ)
    ∧ get_pgn_from_message ((33030400 : ℕ) : ℤ) < 262144
    ∧ ∀ m2 : ℤ, m2 = ((33030400 : ℕ) : ℤ) →
        get_pgn_from_message m2 = get_pgn_from_message ((33030400 : ℕ) : ℤ) :=
  c8_pgn_derivation 33030400 (by norm_num)

/-- C1 counterexample to the original claim: the line
`t R 1F80100 1FF 0 0 0 1 0 0 0` has a payload token `1FF` above 0xFF;
the claim asserts such a line fails with a parse error, is wholly
discarded and mutates no state. In the code the token parses fine, only
the `Latitude` field decode fails (inside its own `try`), and `Longitude`
IS written — state is mutated. Moreover a malformed line (`x`, one token)
raises an uncaught `IndexError` that aborts the loop, so the following
line is never processed — the loop does not continue. -/
theorem c1_counterexample :
    (parse_raw_message emptyDict "t R 1F80100 1FF 0 0 0 1 0 0 0").toOption.map
        (fun r => r.1 "Longitude")
      = some (some (.num ((toI32 (u32le 1 0 0 0) : ℚ) * (1 / 10000000))))
    ∧ emptyDict "Longitude" = none
    ∧ runLoop emptyDict ["x", "t R 1F80100 1FF 0 0 0 1 0 0 0"]
      = .error .indexError :=
  ⟨rfl, rfl, rfl⟩

/-- C1 (amended): a line with fewer than 3 whitespace-separated tokens, or
with a message-id or payload token rejected by `int(tok, 16)` (which
accepts plain, signed, `0x`-prefixed and underscore-separated hex),
raises an uncaught exception before any state mutation, and that
exception terminates the acquisition loop (subsequent lines are never
processed). A token that `int(tok, 16)` accepts — even one encoding a
value above 0xFF or below 0 — is NOT a parse error: such a line proceeds
to per-field decoding (where only the affected fields fail). -/
theorem c1_malformed_line_crashes_loop (d : DataDict) (msg : String)
    (rest : List String) :
    ((pySplit msg).length < 3 →
      parse_raw_message d msg = .error .indexError
      ∧ runLoop d (msg :: rest) = .error .indexError)
    ∧ (∀ ts dir mid pl, pySplit msg = ts :: dir :: mid :: pl →
      pyInt16 mid = none →
      parse_raw_message d msg = .error .valueError
      ∧ runLoop d (msg :: rest) = .error .valueError)
    ∧ (∀ ts dir mid pl msgid, pySplit msg = ts :: dir :: mid :: pl →
      pyInt16 mid = some msgid → hexList pl = none →
      parse_raw_message d msg = .error .valueError
      ∧ runLoop d (msg :: rest) = .error .valueError)
    ∧ (∀ ts dir mid pl msgid bs, pySplit msg = ts :: dir :: mid :: pl →
      pyInt16 mid = some msgid → hexList pl = some bs →
      ∃ r, parse_raw_message d msg = .ok r) := by
  refine ⟨?_, ?_, ?_, ?_⟩
  · intro h
    rcases l : pySplit msg with _ | ⟨a, _ | ⟨b, _ | ⟨c, r⟩⟩⟩
    · have hp : parse_raw_message d msg = .error .indexError := by
        rw [parse_raw_message, l]
      exact ⟨hp, by simp [runLoop, hp]⟩
    · have hp : parse_raw_message d msg = .error .indexError := by
        rw [parse_raw_message, l]
      exact ⟨hp, by simp [runLoop, hp]⟩
    · have hp : parse_raw_message d msg = .error .indexError := by
        rw [parse_raw_message, l]
      exact ⟨hp, by simp [runLoop, hp]⟩
    · rw [l] at h; simp at h; omega
  · intro ts dir mid pl hsp hm
    have hp : parse_raw_message d msg = .error .valueError := by
      rw [parse_raw_message, hsp]; simp [hm]
    exact ⟨hp, by simp [runLoop, hp]⟩
  · intro ts dir mid pl msgid hsp hm hb
    have hp : parse_raw_message d msg = .error .valueError := by
      rw [parse_raw_message, hsp]; simp [hm, hb]
    exact ⟨hp, by simp [runLoop, hp]⟩
  · intro ts dir mid pl msgid bs hsp hm hb
    rw [parse_raw_message, hsp]
    simp only [hm, hb]
    split_ifs <;> exact ⟨_, rfl⟩

/-- C1 witness: the single-token line `x` raises `IndexError` and aborts
the loop. -/
theorem c1_witness :
    parse_raw_message emptyDict "x" = .error .indexError
    ∧ runLoop emptyDict ["x"] = .error .indexError :=
  (c1_malformed_line_crashes_loop emptyDict "x" []).1 (by decide)

/-- C2: a PGN-129025 frame with exactly 8 payload bytes writes both
`Latitude` and `Longitude`, each the little-endian signed 32-bit integer
of its 4-byte slice (bytes 0-3 and 4-7) times `1e-7`, with no further
transform. -/
theorem c2_position_rapid_update (d : DataDict)
    (b0 b1 b2 b3 b4 b5 b6 b7 : ℤ)
    (g0 : 0 ≤ b0) (h0 : b0 < 256) (g1 : 0 ≤ b1) (h1 : b1 < 256)
    (g2 : 0 ≤ b2) (h2 : b2 < 256) (g3 : 0 ≤ b3) (h3 : b3 < 256)
    (g4 : 0 ≤ b4) (h4 : b4 < 256) (g5 : 0 ≤ b5) (h5 : b5 < 256)
    (g6 : 0 ≤ b6) (h6 : b6 < 256) (g7 : 0 ≤ b7) (h7 : b7 < 256) :
    (runBranch false true field_list_gps [b0, b1, b2, b3, b4, b5, b6, b7]
        d).1 "Latitude"
      = some (.num ((toI32 (u32le b0 b1 b2 b3) : ℚ) * (1 / 10000000)))
    ∧ (runBranch false true field_list_gps [b0, b1, b2, b3, b4, b5, b6, b7]
        d).1 "Longitude"
      = some (.num ((toI32 (u32le b4 b5 b6 b7) : ℚ) * (1 / 10000000))) := by
  have hla : decode_latitude_i32_field [b0, b1, b2, b3] =
      .ok (.num ((toI32 (u32le b0 b1 b2 b3) : ℚ) * (1 / 10000000))) := by
    simp [decode_latitude_i32_field, g0, h0, g1, h1, g2, h2, g3, h3]
  have hlo : decode_longitude_i32_field [b4, b5, b6, b7] =
      .ok (.num ((toI32 (u32le b4 b5 b6 b7) : ℚ) * (1 / 10000000))) := by
    simp [decode_longitude_i32_field, g4, h4, g5, h5, g6, h6, g7, h7]
  have hs1 : (([b0, b1, b2, b3, b4, b5, b6, b7] : List ℤ).drop 0).take 4
      = [b0, b1, b2, b3] := rfl
  have hs2 : (([b0, b1, b2, b3, b4, b5, b6, b7] : List ℤ).drop 4).take 4
      = [b4, b5, b6, b7] := rfl
  constructor <;>
    (rw [runBranch_fst, applyAll_apply]
     simp [fieldWrites, field_list_gps, field_decoders, hs1, hs2, hla, hlo,
       lookupLast])

/-- C2 witness: a concrete frame with `Latitude` raw value 1 and
`Longitude` raw value 2. -/
theorem c2_witness :
    (runBranch false true field_list_gps [1, 0, 0, 0, 2, 0, 0, 0]
        emptyDict).1 "Latitude"
      = some (.num ((toI32 (u32le 1 0 0 0) : ℚ) * (1 / 10000000)))
    ∧ (runBranch false true field_list_gps [1, 0, 0, 0, 2, 0, 0, 0]
        emptyDict).1 "Longitude"
      = some (.num ((toI32 (u32le 2 0 0 0) : ℚ) * (1 / 10000000))) :=
  c2_position_rapid_update emptyDict 1 0 0 0 2 0 0 0 (by decide) (by decide)
    (by decide) (by decide) (by decide) (by decide) (by decide) (by decide)
    (by decide) (by decide) (by decide) (by decide) (by decide) (by decide)
    (by decide) (by decide)

/-- C3: on PGNs 127257 (Attitude) and 127250 (Heading) every successfully
decoded field is stored multiplied by `180/π` (with `π` the double
`np.pi`); in particular the PGN-127250 payload `[0x00, 0x00, 0x10]`
(SID 0, `Heading` raw `0x1000`) stores
`(0x1000 * 1e-4) * 180/π`. No other PGN applies the transform: 129025
stores the raw `Latitude`/`Longitude` decoder results, 129026 stores the
raw `SID` decoder result, and any unrecognized PGN stores nothing at
all. -/
theorem c3_degree_transform_only_attitude_heading :
    (∀ (d : DataDict) (b0 b1 b2 b3 b4 b5 b6 : ℤ) (qy qp qr : ℚ),
      decode_angle_i16_field [b1, b2] = .ok (.num qy) →
      decode_angle_i16_field [b3, b4] = .ok (.num qp) →
      decode_angle_i16_field [b5, b6] = .ok (.num qr) →
      (runBranch true true field_list_attitude [b0, b1, b2, b3, b4, b5, b6]
          d).1 "Yaw" = some (.num (180 * qy / np_pi))
      ∧ (runBranch true true field_list_attitude [b0, b1, b2, b3, b4, b5, b6]
          d).1 "Pitch" = some (.num (180 * qp / np_pi))
      ∧ (runBranch true true field_list_attitude [b0, b1, b2, b3, b4, b5, b6]
          d).1 "Roll" = some (.num (180 * qr / np_pi)))
    ∧ (∀ d : DataDict,
      (runBranch true true field_list_heading [0, 0, 16] d).1 "Heading"
        = some (.num (((4096 : ℚ) * (1 / 10000)) * 180 / np_pi)))
    ∧ (∀ (d : DataDict) (b0 b1 b2 b3 b4 b5 b6 b7 : ℤ) (qla qlo : ℚ),
      decode_latitude_i32_field [b0, b1, b2, b3] = .ok (.num qla) →
      decode_longitude_i32_field [b4, b5, b6, b7] = .ok (.num qlo) →
      (runBranch false true field_list_gps [b0, b1, b2, b3, b4, b5, b6, b7]
          d).1 "Latitude" = some (.num qla)
      ∧ (runBranch false true field_list_gps [b0, b1, b2, b3, b4, b5, b6, b7]
          d).1 "Longitude" = some (.num qlo))
    ∧ (∀ (d : DataDict) (b : ℤ) (bs : List ℤ) (v : Value),
      decode_uint8_field (b :: bs) = .ok v →
      (runBranch false false field_list_cog_sog (b :: bs) d).1 "SID"
        = some v)
    ∧ (∀ (d : DataDict) (msg ts dir mid : String) (pl : List String)
        (msgid : ℤ) (bs : List ℤ),
      pySplit msg = ts :: dir :: mid :: pl →
      pyInt16 mid = some msgid → hexList pl = some bs →
      get_pgn_from_message msgid ≠ 129025 →
      get_pgn_from_message msgid ≠ 129026 →
      get_pgn_from_message msgid ≠ 127257 →
      get_pgn_from_message msgid ≠ 127250 →
      parse_raw_message d msg = .ok (d, [])) := by
  refine ⟨?_, ?_, ?_, ?_, ?_⟩
  · intro d b0 b1 b2 b3 b4 b5 b6 qy qp qr hy hp hr
    have hs1 : (([b0, b1, b2, b3, b4, b5, b6] : List ℤ).drop 1).take 2
        = [b1, b2] := rfl
    have hs2 : (([b0, b1, b2, b3, b4, b5, b6] : List ℤ).drop 3).take 2
        = [b3, b4] := rfl
    have hs3 : (([b0, b1, b2, b3, b4, b5, b6] : List ℤ).drop 5).take 2
        = [b5, b6] := rfl
    refine ⟨?_, ?_, ?_⟩ <;>
      (rw [runBranch_fst, applyAll_apply]
       simp [fieldWrites, field_list_attitude, field_decoders, hs1, hs2,
         hs3, hy, hp, hr, lookupLast])
  · intro d
    have hrfl : (runBranch true true field_list_heading [0, 0, 16] d).1
        "Heading"
        = some (.num (180 * ((u16le 0 16 : ℚ) * (1 / 10000)) / np_pi)) := rfl
    rw [hrfl]
    simp only [Option.some.injEq, Value.num.injEq]
    norm_num [u16le]
  · intro d b0 b1 b2 b3 b4 b5 b6 b7 qla qlo hla hlo
    have hs1 : (([b0, b1, b2, b3, b4, b5, b6, b7] : List ℤ).drop 0).take 4
        = [b0, b1, b2, b3] := rfl
    have hs2 : (([b0, b1, b2, b3, b4, b5, b6, b7] : List ℤ).drop 4).take 4
        = [b4, b5, b6, b7] := rfl
    constructor <;>
      (rw [runBranch_fst, applyAll_apply]
       simp [fieldWrites, field_list_gps, field_decoders, hs1, hs2, hla,
         hlo, lookupLast])
  · intro d b bs v hv
    have hb : Value.num b = v := by
      simpa [decode_uint8_field] using hv
    subst hb
    have hs : (((b :: bs) : List ℤ).drop 0).take 1 = [b] := rfl
    rw [runBranch_fst, applyAll_apply]
    simp [fieldWrites, field_list_cog_sog, field_decoders, hs,
      decode_uint8_field, lookupLast]
  · intro d msg ts dir mid pl msgid bs hsp hm hb h1 h2 h3 h4
    rw [parse_raw_message, hsp]
    simp [hm, hb, h1, h2, h3, h4]

/-- C3 witness: a full attitude frame with raw angle `0x1000` in all three
fields stores each as the decoded value times `180/π`. -/
theorem c3_witness :
    (runBranch true true field_list_attitude [7, 0, 16, 0, 16, 0, 16]
        emptyDict).1 "Yaw"
      = some (.num (180 * ((toI16 (u16le 0 16) : ℚ) * (1 / 10000)) / np_pi))
    ∧ (runBranch true true field_list_attitude [7, 0, 16, 0, 16, 0, 16]
        emptyDict).1 "Pitch"
      = some (.num (180 * ((toI16 (u16le 0 16) : ℚ) * (1 / 10000)) / np_pi))
    ∧ (runBranch true true field_list_attitude [7, 0, 16, 0, 16, 0, 16]
        emptyDict).1 "Roll"
      = some (.num (180 * ((toI16 (u16le 0 16) : ℚ) * (1 / 10000)) / np_pi)) :=
  c3_degree_transform_only_attitude_heading.1 emptyDict 7 0 16 0 16 0 16
    _ _ _ rfl rfl rfl

/-- C5: a PGN-127257 payload truncated to exactly 3 bytes skips `SID`,
decodes `Yaw` from bytes 1-2 (stored with the degree transform), leaves
`Pitch` and `Roll` untouched, emits the insufficient-length diagnostic,
and the running offset still advances by every field's declared length
(final offset 7). -/
theorem c5_truncated_attitude (d : DataDict) (b0 b1 b2 : ℤ)
    (g0 : 0 ≤ b0) (h0 : b0 < 256) (g1 : 0 ≤ b1) (h1 : b1 < 256)
    (g2 : 0 ≤ b2) (h2 : b2 < 256) :
    (runBranch true true field_list_attitude [b0, b1, b2] d).1 "Yaw"
      = some (.num (180 * ((toI16 (u16le b1 b2) : ℚ) * (1 / 10000)) / np_pi))
    ∧ (runBranch true true field_list_attitude [b0, b1, b2] d).1 "Pitch"
      = d "Pitch"
    ∧ (runBranch true true field_list_attitude [b0, b1, b2] d).1 "Roll"
      = d "Roll"
    ∧ Diag.lengthWarning 3 7
      ∈ (runBranch true true field_list_attitude [b0, b1, b2] d).2.1
    ∧ (runBranch true true field_list_attitude [b0, b1, b2] d).2.2 = 7 := by
  have hs1 : (([b0, b1, b2] : List ℤ).drop 1).take 2 = [b1, b2] := rfl
  have hs2 : (([b0, b1, b2] : List ℤ).drop 3).take 2 = [] := rfl
  have hs3 : (([b0, b1, b2] : List ℤ).drop 5).take 2 = [] := rfl
  refine ⟨?_, ?_, ?_, ?_, ?_⟩
  · rw [runBranch_fst, applyAll_apply]
    simp [fieldWrites, field_list_attitude, field_decoders, hs1, hs2, hs3,
      decode_angle_i16_field, g1, h1, g2, h2, lookupLast]
  · rw [runBranch_fst, applyAll_apply]
    simp [fieldWrites, field_list_attitude, field_decoders, hs1, hs2, hs3,
      decode_angle_i16_field, g1, h1, g2, h2, lookupLast]
  · rw [runBranch_fst, applyAll_apply]
    simp [fieldWrites, field_list_attitude, field_decoders, hs1, hs2, hs3,
      decode_angle_i16_field, g1, h1, g2, h2, lookupLast]
  · simp [runBranch, decodeFields, field_list_attitude, field_decoders,
      hs1, hs2, hs3, decode_angle_i16_field, g1, h1, g2, h2]
  · simp [runBranch, decodeFields, field_list_attitude, field_decoders,
      hs1, hs2, hs3, decode_angle_i16_field, g1, h1, g2, h2]

/-- C5 witness: the truncated attitude payload `[9, 0, 16]`. -/
theorem c5_witness :
    (runBranch true true field_list_attitude [9, 0, 16] emptyDict).1 "Yaw"
      = some (.num (180 * ((toI16 (u16le 0 16) : ℚ) * (1 / 10000)) / np_pi))
    ∧ (runBranch true true field_list_attitude [9, 0, 16] emptyDict).1
        "Pitch" = emptyDict "Pitch"
    ∧ (runBranch true true field_list_attitude [9, 0, 16] emptyDict).1
        "Roll" = emptyDict "Roll"
    ∧ Diag.lengthWarning 3 7
      ∈ (runBranch true true field_list_attitude [9, 0, 16] emptyDict).2.1
    ∧ (runBranch true true field_list_attitude [9, 0, 16] emptyDict).2.2
      = 7 :=
  c5_truncated_attitude emptyDict 9 0 16 (by decide) (by decide)
    (by decide) (by decide) (by decide) (by decide)

/-- C9: processing the same input line twice in succession leaves the
store exactly as processing it once — every field write is a pure
overwrite keyed by field name, with no accumulation. -/
theorem c9_idempotent (d : DataDict) (msg : String) :
    runLoop d [msg, msg] = runLoop d [msg] := by
  rcases parse_writes msg with ⟨e, he⟩ | ⟨ws, hw⟩
  · simp [runLoop, he d]
  · obtain ⟨l1, h1⟩ := hw d
    obtain ⟨l2, h2⟩ := hw (applyAll ws d)
    simp [runLoop, h1, h2, applyAll_idem]

end Furuno
